import Mathlib

/-
Verification of the games CRUD service.

The repository ships two database-backed implementations of the same
endpoint set (src/api/server.ts, an express server, and the framework
route files src/app/api/games/route.ts and the database half of
src/app/api/games/[id]/route.ts) plus an in-memory demo variant (the
first half of src/app/api/games/[id]/route.ts over src/lib/games-data.ts).

This file embeds the request handlers of all three variants.  JavaScript
values are embedded as follows: strings as String, JS numbers appearing
in payloads as rationals, possibly-NaN integer results of parseInt as
Option Int (none models NaN), absent or undefined values as none, and
the SQL store as a list of rows.  The JWT primitives are capability
parameters (verify : token -> secret -> Option userId), following the
treatment of signing primitives as opaque capability interfaces.
-/

namespace GamesApi

/-! ## JavaScript-flavoured helpers -/

/-- JS expression v || d on strings: undefined and the empty string are
falsy and fall through to the default. -/
def jsStrOr (v : Option String) (d : String) : String :=
  match v with
  | none => d
  | some s => if s = "" then d else s

/-- JS expression v || d on numbers: NaN (none) and 0 are falsy. -/
def jsIntOr (v : Option Int) (d : Int) : Int :=
  match v with
  | none => d
  | some n => if n = 0 then d else n

/-- Math.max over a possibly-NaN operand: NaN propagates. -/
def jsMaxNum (a : Int) (v : Option Int) : Option Int :=
  match v with
  | none => none
  | some n => some (max a n)

/-- Math.min over a possibly-NaN operand: NaN propagates. -/
def jsMinNum (a : Int) (v : Option Int) : Option Int :=
  match v with
  | none => none
  | some n => some (min a n)

/-- String.prototype.trim, written over the character list so that it
reduces inside the kernel. -/
def jsTrim (s : String) : String :=
  String.mk (((s.data.dropWhile Char.isWhitespace).reverse.dropWhile
    Char.isWhitespace).reverse)

/-- String.prototype.toLowerCase over the character list. -/
def lowerStr (s : String) : String :=
  String.mk (s.data.map Char.toLower)

/-- Split on a single-character separator, as JS split(" ") and the Joi
uuid rule use it. -/
def splitOnChar (sep : Char) : List Char → List (List Char)
  | [] => [[]]
  | c :: t =>
    let r := splitOnChar sep t
    if c = sep then [] :: r
    else
      match r with
      | [] => [[c]]
      | h :: t2 => (c :: h) :: t2

def natOfDigits (l : List Char) : Nat :=
  l.foldl (fun a c => 10 * a + (c.toNat - 48)) 0

def parseDigitsPrefix (cs : List Char) : Option Nat :=
  let ds := cs.takeWhile Char.isDigit
  if ds.isEmpty then none else some (natOfDigits ds)

/-- JS parseInt with radix 10: skip leading whitespace, optional sign,
then the longest digit prefix; no digits gives NaN (none). -/
def jsParseInt (s : String) : Option Int :=
  let cs := s.data.dropWhile (fun c => c = ' ' || c = '\t' || c = '\n' || c = '\r')
  match cs with
  | '+' :: rest => (parseDigitsPrefix rest).map (fun n => (n : Int))
  | '-' :: rest => (parseDigitsPrefix rest).map (fun n => -(n : Int))
  | rest => (parseDigitsPrefix rest).map (fun n => (n : Int))

/-! ## Data model

The Game record, from src/types/game.ts (the shape shared by the demo
store and, for the fields the claims touch, the games table rows). -/

structure Game where
  id : String
  name : String
  genre : String
  rating : ℚ
  price : ℚ
  description : Option String
  releaseDate : Option String
  platform : Option (List String)
  createdAt : Option String
  updatedAt : Option String
deriving DecidableEq, Repr

/-- A JSON value as far as the platform field is concerned; the two Joi
schemas disagree on which shapes they accept. -/
inductive JsonVal where
  | null : JsonVal
  | str : String → JsonVal
  | num : ℚ → JsonVal
  | arrStr : List String → JsonVal
deriving DecidableEq, Repr

/-- A game payload as received by the create and update endpoints; none
models an absent field. -/
structure GameInput where
  name : Option String
  genre : Option String
  rating : Option ℚ
  price : Option ℚ
  description : Option String
  releaseDate : Option String
  platform : Option JsonVal
deriving DecidableEq, Repr

/-- Body of the in-memory PUT handler, which validates by hand. -/
structure PutBody where
  name : Option String
  genre : Option String
  rating : Option ℚ
  price : Option ℚ
  description : Option String
  releaseDate : Option String
  platform : Option (List String)
deriving DecidableEq, Repr

structure PageMeta where
  currentPage : Nat
  totalPages : Nat
  totalItems : Nat
  itemsPerPage : Nat
  hasNextPage : Bool
  hasPreviousPage : Bool
deriving DecidableEq, Repr

/-! ## Authentication

src/api/server.ts authenticateToken and src/lib/auth.ts verifyToken. -/

/-- Token extraction, authHeader && authHeader.split(" ")[1]; an absent
element or the empty string is falsy and counts as no token. -/
def extractBearerToken (h : Option String) : Option String :=
  match h with
  | none => none
  | some s =>
    match (splitOnChar ' ' s.data).get? 1 with
    | none => none
    | some t => if t = [] then none else some (String.mk t)

inductive AuthOutcome where
  | missing
  | misconfigured
  | invalid
  | ok : String → AuthOutcome
deriving DecidableEq, Repr

/-- src/api/server.ts authenticateToken: missing token is checked first,
then the missing secret, then signature verification. -/
def authenticateToken (verify : String → String → Option String)
    (secret : Option String) (authHdr : Option String) : AuthOutcome :=
  match extractBearerToken authHdr with
  | none => .missing
  | some t =>
    match secret with
    | none => .misconfigured
    | some k =>
      match verify t k with
      | none => .invalid
      | some u => .ok u

/-- src/lib/auth.ts verifyToken: returns null when the token or the
secret is absent, and null again when verification throws. -/
def nextVerifyToken (verify : String → String → Option String)
    (secret : Option String) (authHdr : Option String) : Option String :=
  match extractBearerToken authHdr, secret with
  | some t, some k => verify t k
  | _, _ => none

/-! ## Validation

The two Joi game schemas: src/api/server.ts gameSchema and
src/lib/validation.ts gameSchema.  Joi converts by default, so string
rules measure the trimmed value; precision(n) rounds rather than
rejects and is therefore not modelled (no claim depends on it). -/

def joiNameOk (v : Option String) : Bool :=
  match v with
  | none => false
  | some s => 1 ≤ (jsTrim s).length && (jsTrim s).length ≤ 255

def joiGenreOk (v : Option String) : Bool :=
  match v with
  | none => false
  | some s => 1 ≤ (jsTrim s).length && (jsTrim s).length ≤ 100

def joiRatingOk (v : Option ℚ) : Bool :=
  match v with
  | none => false
  | some x => 0 ≤ x && x ≤ 10

def joiPriceOk (v : Option ℚ) : Bool :=
  match v with
  | none => false
  | some x => 0 ≤ x && x ≤ 999999 / 100

def joiDescriptionOk (v : Option String) : Bool :=
  match v with
  | none => true
  | some s => s = "" || (jsTrim s).length ≤ 1000

/-- src/api/server.ts: platform is Joi.array of at most 10 items, each
Joi.string().max(50); a Joi string without allow of the empty string
rejects the empty string, so every item must be nonempty and at most 50
characters; null is allowed. -/
def serverPlatformRule (v : JsonVal) : Bool :=
  match v with
  | .null => true
  | .arrStr l => decide (l.length ≤ 10) &&
      l.all (fun s => !(s = "") && decide (s.length ≤ 50))
  | _ => false

/-- src/lib/validation.ts: platform is Joi.string of at most 100
characters, with the empty string and null allowed. -/
def libPlatformRule (v : JsonVal) : Bool :=
  match v with
  | .null => true
  | .str s => s = "" || decide ((jsTrim s).length ≤ 100)
  | _ => false

/-- src/api/server.ts gameSchema: releaseDate must satisfy the
Joi.date().iso() rule when present, platform is an array of short
nonempty strings.  The ISO date rule combines an ISO-8601 grammar with
calendar validity; like the signing primitives it is treated as an
opaque predicate capability (dateOk), so every statement below holds for
the actual rule as one instance. -/
def serverGameValid (dateOk : String → Bool) (g : GameInput) : Bool :=
  joiNameOk g.name && joiGenreOk g.genre && joiRatingOk g.rating &&
  joiPriceOk g.price && joiDescriptionOk g.description &&
  (match g.releaseDate with
   | none => true
   | some s => dateOk s) &&
  (match g.platform with
   | none => true
   | some v => serverPlatformRule v)

/-- src/lib/validation.ts gameSchema: releaseDate is alternatives of an
ISO date or an arbitrary string, so any string passes; platform is a
string of at most 100 characters. -/
def libGameValid (g : GameInput) : Bool :=
  joiNameOk g.name && joiGenreOk g.genre && joiRatingOk g.rating &&
  joiPriceOk g.price && joiDescriptionOk g.description &&
  (match g.platform with
   | none => true
   | some v => libPlatformRule v)

def isHexChar (c : Char) : Bool :=
  c.isDigit || ('a' ≤ c && c ≤ 'f') || ('A' ≤ c && c ≤ 'F')

/-- Joi.string().uuid(): five dash-separated hex groups of lengths
8-4-4-4-12. -/
def isUuid (s : String) : Bool :=
  match splitOnChar '-' s.data with
  | [a, b, c, d, e] =>
    a.length = 8 && b.length = 4 && c.length = 4 && d.length = 4 &&
    e.length = 12 && (a ++ b ++ c ++ d ++ e).all isHexChar
  | _ => false

/-! ## Pagination parameter parsing

src/api/server.ts lines 360-364 versus src/app/api/games/route.ts
lines 19-24.  The express variant guards parseInt with a falsy-default,
the framework variant does not, so a NaN can flow through the latter. -/

/-- Express: req.query.page ? Math.max(1, parseInt(...) || 1) : 1. -/
def serverEffPage (q : Option String) : Int :=
  match q with
  | none => 1
  | some s => if s = "" then 1 else max 1 (jsIntOr (jsParseInt s) 1)

/-- Express: req.query.limit ? Math.min(100, Math.max(1, parseInt(...) || 10)) : 10. -/
def serverEffLimit (q : Option String) : Int :=
  match q with
  | none => 10
  | some s => if s = "" then 10 else min 100 (max 1 (jsIntOr (jsParseInt s) 10))

/-- Framework route: Math.max(1, parseInt(searchParams.get("page") || "1")).
NaN from parseInt propagates through Math.max. -/
def nextEffPage (q : Option String) : Option Int :=
  jsMaxNum 1 (jsParseInt (jsStrOr q "1"))

/-- Framework route: Math.min(100, Math.max(1, parseInt(... || "10"))). -/
def nextEffLimit (q : Option String) : Option Int :=
  jsMinNum 100 (jsMaxNum 1 (jsParseInt (jsStrOr q "10")))

/-! ## The games list query builder

Both database-backed implementations build the page and count queries
with identical code (src/api/server.ts lines 365-397 and
src/app/api/games/route.ts lines 25-58), so one embedding serves both.
The select text is normalized to one line; the quoted column aliases of
the source are kept. -/

def validSortColumns : List String := ["name", "genre", "rating", "price", "created_at"]

def gamesSelectBase : String :=
  "SELECT id, name, genre, rating, price, description, release_date as \"releaseDate\", platform, created_at as \"createdAt\", updated_at as \"updatedAt\" FROM games "

def searchWhereClause : String :=
  " WHERE (name ILIKE $1 OR genre ILIKE $1 OR description ILIKE $1)"

inductive SqlParam where
  | s : String → SqlParam
  | i : Int → SqlParam
deriving DecidableEq, Repr

structure GamesListQuery where
  text : String
  params : List SqlParam
  countText : String
  countParams : List SqlParam
deriving DecidableEq, Repr

/-- The query construction, step for step from the source: resolve the
sort column against the allow-list, append the search clause and bind
its pattern when a search is present, then append ORDER BY and the
LIMIT and OFFSET placeholders and bind their values. -/
def buildGamesListQuery (qsortBy qsortOrder qsearch : Option String)
    (limit offset : Int) : GamesListQuery :=
  let sortBy := jsStrOr qsortBy "name"
  let sortOrder := if qsortOrder = some "desc" then "DESC" else "ASC"
  let search := jsStrOr qsearch ""
  let sortColumn := if validSortColumns.contains sortBy then sortBy else "name"
  let withSearch := !(search = "")
  let text1 := if withSearch then gamesSelectBase ++ searchWhereClause else gamesSelectBase
  let countText1 := if withSearch then "SELECT COUNT(*) FROM games" ++ searchWhereClause
    else "SELECT COUNT(*) FROM games"
  let params1 : List SqlParam :=
    if withSearch then [SqlParam.s ("%" ++ search ++ "%")] else []
  let text2 := text1 ++ " ORDER BY " ++ sortColumn ++ " " ++ sortOrder ++
    " LIMIT $" ++ toString (params1.length + 1) ++ " OFFSET $" ++ toString (params1.length + 2)
  ⟨text2, params1 ++ [SqlParam.i limit, SqlParam.i offset], countText1, params1⟩

/-- The fixed shape of the generated query text: it is a function of the
resolved column, the direction keyword and the presence of a search
filter alone, so no other user-supplied text can reach it. -/
def listQueryTemplate (withSearch : Bool) (col dir : String) : String :=
  let bound : Nat := if withSearch then 1 else 0
  (if withSearch then gamesSelectBase ++ searchWhereClause else gamesSelectBase) ++
  " ORDER BY " ++ col ++ " " ++ dir ++
  " LIMIT $" ++ toString (bound + 1) ++ " OFFSET $" ++ toString (bound + 2)

/-! ## The list endpoint data path

The rows come back from the store sorted by the resolved column, search
filtered, and windowed by LIMIT and OFFSET; the count query returns the
size of the filtered set.  ORDER BY is modelled by an insertion sort
with the per-column key order. -/

/-- ILIKE with wildcards on both sides: case-insensitive substring; a
NULL description matches nothing. -/
def matchesSearch (search : String) (g : Game) : Bool :=
  let needle := (lowerStr search).data
  decide (needle <:+: (lowerStr g.name).data) ||
  decide (needle <:+: (lowerStr g.genre).data) ||
  (match g.description with
   | none => false
   | some d => decide (needle <:+: (lowerStr d).data))

/-- The WHERE clause is added only when a search is present. -/
def filteredGames (store : List Game) (search : String) : List Game :=
  if search = "" then store else store.filter (matchesSearch search)

def gameKeyLe (col : String) (a b : Game) : Bool :=
  if col = "genre" then a.genre ≤ b.genre
  else if col = "rating" then a.rating ≤ b.rating
  else if col = "price" then a.price ≤ b.price
  else if col = "created_at" then a.createdAt.getD "" ≤ b.createdAt.getD ""
  else a.name ≤ b.name

def gameLe (col dir : String) (a b : Game) : Bool :=
  if dir = "DESC" then gameKeyLe col b a else gameKeyLe col a b

def insertOrdered (le : Game → Game → Bool) (a : Game) : List Game → List Game
  | [] => [a]
  | b :: t => if le a b then a :: b :: t else b :: insertOrdered le a t

def sortGames (le : Game → Game → Bool) : List Game → List Game
  | [] => []
  | a :: t => insertOrdered le a (sortGames le t)

/-- Math.ceil(t / l) for natural t and positive l. -/
def jsCeilDiv (t l : Nat) : Nat := (t + l - 1) / l

/-- The shared body of the two list handlers: page and count query
results plus the pagination meta block, computed exactly as in the
source (offset = (page-1)*limit, totalPages = ceil(totalItems/limit),
hasNextPage = page < totalPages, hasPreviousPage = page > 1). -/
def listGamesCore (store : List Game) (search col dir : String)
    (page limit : Nat) : List Game × PageMeta :=
  let offset := (page - 1) * limit
  let filtered := filteredGames store search
  let rows := ((sortGames (gameLe col dir) filtered).drop offset).take limit
  let totalItems := filtered.length
  let totalPages := jsCeilDiv totalItems limit
  (rows, ⟨page, totalPages, totalItems, limit,
    decide (page < totalPages), decide (1 < page)⟩)

/-! ## Store-level statement semantics

SQL statements of the id endpoints over the row list. -/

/-- SELECT ... WHERE id = $1. -/
def dbSelectById (id : String) (store : List Game) : List Game :=
  store.filter (fun g => g.id = id)

/-- The update applied by the SET list of the PUT statement: created_at
and id are not in the SET list and stay untouched. -/
def applyDbUpdate (g : GameInput) (now : String) (r : Game) : Game :=
  { r with
    name := jsTrim (g.name.getD "")
    genre := jsTrim (g.genre.getD "")
    rating := g.rating.getD 0
    price := g.price.getD 0
    description := g.description
    releaseDate := g.releaseDate
    platform := match g.platform with
      | some (.arrStr l) => some l
      | _ => none
    updatedAt := some now }

/-- UPDATE games SET ... WHERE id = $8, with the number of affected rows. -/
def dbUpdateById (id : String) (g : GameInput) (now : String)
    (store : List Game) : List Game × Nat :=
  (store.map (fun r => if r.id = id then applyDbUpdate g now r else r),
   (store.filter (fun r => r.id = id)).length)

/-- INSERT INTO games ... with server-assigned id and timestamps. -/
def dbInsertGame (g : GameInput) (newId now : String)
    (store : List Game) : List Game :=
  store ++ [{ id := newId
              name := jsTrim (g.name.getD "")
              genre := jsTrim (g.genre.getD "")
              rating := g.rating.getD 0
              price := g.price.getD 0
              description := g.description
              releaseDate := g.releaseDate
              platform := match g.platform with
                | some (.arrStr l) => some l
                | _ => none
              createdAt := some now
              updatedAt := some now }]

/-- DELETE FROM games WHERE id = $1 RETURNING id, with the row count. -/
def dbDeleteById (id : String) (store : List Game) : List Game × Nat :=
  (store.filter (fun g => !(g.id = id)),
   (store.filter (fun g => g.id = id)).length)

/-! ## Outcome records -/

/-- Outcome of a request against a database-backed endpoint: response
status and error string, the number of SQL statements issued, and the
store after the request. -/
structure DbOutcome where
  status : Nat
  error : Option String
  queries : Nat
  store : List Game
deriving DecidableEq, Repr

/-- Outcome of a list request; rows and meta carry the 200 payload. -/
structure ListOutcome where
  status : Nat
  error : Option String
  queries : Nat
  rows : List Game
  meta : Option PageMeta
  store : List Game
deriving DecidableEq, Repr

/-- Outcome of a request against the in-memory variant. -/
structure MemOutcome where
  status : Nat
  error : Option String
  data : Option Game
  store : List Game
deriving DecidableEq, Repr

/-! ## Express endpoints (src/api/server.ts)

Each endpoint is the composition of the authenticateToken middleware,
the id and body validators in their registration order, and the handler
body.  Failure responses carry the literal error strings of the
source. -/

def serverGamesList (verify : String → String → Option String)
    (secret authHdr qpage qlimit qsortBy qsortOrder qsearch : Option String)
    (store : List Game) : ListOutcome :=
  match authenticateToken verify secret authHdr with
  | .missing => ⟨401, some "Access token required", 0, [], none, store⟩
  | .misconfigured => ⟨500, some "Internal server error", 0, [], none, store⟩
  | .invalid => ⟨403, some "Invalid or expired token", 0, [], none, store⟩
  | .ok _ =>
    let page := (serverEffPage qpage).toNat
    let limit := (serverEffLimit qlimit).toNat
    let sortBy := jsStrOr qsortBy "name"
    let col := if validSortColumns.contains sortBy then sortBy else "name"
    let dir := if qsortOrder = some "desc" then "DESC" else "ASC"
    let r := listGamesCore store (jsStrOr qsearch "") col dir page limit
    ⟨200, none, 2, r.1, some r.2, store⟩

/-- The GET by id handler body: one SELECT, 200 on a row, 404 otherwise. -/
def dbGetByIdHandler (id : String) (store : List Game) : DbOutcome :=
  match dbSelectById id store with
  | [] => ⟨404, some "Game not found", 1, store⟩
  | _ :: _ => ⟨200, none, 1, store⟩

/-- The DELETE handler body: one DELETE, 200 when rowCount is positive. -/
def dbDeleteHandler (id : String) (store : List Game) : DbOutcome :=
  let r := dbDeleteById id store
  if 0 < r.2 then ⟨200, none, 1, r.1⟩
  else ⟨404, some "Game not found", 1, r.1⟩

/-- The PUT handler body: one UPDATE, 404 when no row came back. -/
def dbUpdateHandler (id : String) (body : GameInput) (now : String)
    (store : List Game) : DbOutcome :=
  let r := dbUpdateById id body now store
  if 0 < r.2 then ⟨200, none, 1, r.1⟩
  else ⟨404, some "Game not found", 1, r.1⟩

/-- The POST handler body: one INSERT; a unique-name conflict surfaces
as the 23505 branch, 409. -/
def dbInsertHandler (body : GameInput) (newId now : String)
    (store : List Game) : DbOutcome :=
  if store.any (fun g => g.name = jsTrim (body.name.getD "")) then
    ⟨409, some "Game with this name already exists", 1, store⟩
  else ⟨201, none, 1, dbInsertGame body newId now store⟩

def serverGameById (verify : String → String → Option String)
    (secret authHdr : Option String) (id : String)
    (store : List Game) : DbOutcome :=
  match authenticateToken verify secret authHdr with
  | .missing => ⟨401, some "Access token required", 0, store⟩
  | .misconfigured => ⟨500, some "Internal server error", 0, store⟩
  | .invalid => ⟨403, some "Invalid or expired token", 0, store⟩
  | .ok _ =>
    if isUuid id then dbGetByIdHandler id store
    else ⟨400, some "Validation failed", 0, store⟩

def serverCreateGame (verify : String → String → Option String)
    (dateOk : String → Bool) (secret authHdr : Option String)
    (body : GameInput) (newId now : String)
    (store : List Game) : DbOutcome :=
  match authenticateToken verify secret authHdr with
  | .missing => ⟨401, some "Access token required", 0, store⟩
  | .misconfigured => ⟨500, some "Internal server error", 0, store⟩
  | .invalid => ⟨403, some "Invalid or expired token", 0, store⟩
  | .ok _ =>
    if serverGameValid dateOk body then dbInsertHandler body newId now store
    else ⟨400, some "Validation failed", 0, store⟩

def serverUpdateGame (verify : String → String → Option String)
    (dateOk : String → Bool) (secret authHdr : Option String)
    (id : String) (body : GameInput)
    (now : String) (store : List Game) : DbOutcome :=
  match authenticateToken verify secret authHdr with
  | .missing => ⟨401, some "Access token required", 0, store⟩
  | .misconfigured => ⟨500, some "Internal server error", 0, store⟩
  | .invalid => ⟨403, some "Invalid or expired token", 0, store⟩
  | .ok _ =>
    if isUuid id then
      if serverGameValid dateOk body then dbUpdateHandler id body now store
      else ⟨400, some "Validation failed", 0, store⟩
    else ⟨400, some "Validation failed", 0, store⟩

def serverDeleteGame (verify : String → String → Option String)
    (secret authHdr : Option String) (id : String)
    (store : List Game) : DbOutcome :=
  match authenticateToken verify secret authHdr with
  | .missing => ⟨401, some "Access token required", 0, store⟩
  | .misconfigured => ⟨500, some "Internal server error", 0, store⟩
  | .invalid => ⟨403, some "Invalid or expired token", 0, store⟩
  | .ok _ =>
    if isUuid id then dbDeleteHandler id store
    else ⟨400, some "Validation failed", 0, store⟩

/-! ## Framework database-backed endpoints

src/app/api/games/route.ts and the database half of
src/app/api/games/[id]/route.ts.  verifyToken folds every
authentication failure into null, answered 401 "Access token required".
The two pagination parameters can be NaN (C5); the NaN branch reaches
the driver and falls into the catch-all 500 of the handler. -/

def nextGamesList (verify : String → String → Option String)
    (secret authHdr qpage qlimit qsortBy qsortOrder qsearch : Option String)
    (store : List Game) : ListOutcome :=
  match nextVerifyToken verify secret authHdr with
  | none => ⟨401, some "Access token required", 0, [], none, store⟩
  | some _ =>
    match nextEffPage qpage, nextEffLimit qlimit with
    | some page, some limit =>
      let sortBy := jsStrOr qsortBy "name"
      let col := if validSortColumns.contains sortBy then sortBy else "name"
      let dir := if qsortOrder = some "desc" then "DESC" else "ASC"
      let r := listGamesCore store (jsStrOr qsearch "") col dir page.toNat limit.toNat
      ⟨200, none, 2, r.1, some r.2, store⟩
    | _, _ => ⟨500, some "Failed to retrieve games", 2, [], none, store⟩

def nextGameById (verify : String → String → Option String)
    (secret authHdr : Option String) (id : String)
    (store : List Game) : DbOutcome :=
  match nextVerifyToken verify secret authHdr with
  | none => ⟨401, some "Access token required", 0, store⟩
  | some _ =>
    if isUuid id then dbGetByIdHandler id store
    else ⟨400, some "Validation failed", 0, store⟩

def nextCreateGame (verify : String → String → Option String)
    (secret authHdr : Option String) (body : GameInput) (newId now : String)
    (store : List Game) : DbOutcome :=
  match nextVerifyToken verify secret authHdr with
  | none => ⟨401, some "Access token required", 0, store⟩
  | some _ =>
    if libGameValid body then dbInsertHandler body newId now store
    else ⟨400, some "Validation failed", 0, store⟩

def nextUpdateGame (verify : String → String → Option String)
    (secret authHdr : Option String) (id : String) (body : GameInput)
    (now : String) (store : List Game) : DbOutcome :=
  match nextVerifyToken verify secret authHdr with
  | none => ⟨401, some "Access token required", 0, store⟩
  | some _ =>
    if isUuid id then
      if libGameValid body then dbUpdateHandler id body now store
      else ⟨400, some "Validation failed", 0, store⟩
    else ⟨400, some "Validation failed", 0, store⟩

def nextDeleteGame (verify : String → String → Option String)
    (secret authHdr : Option String) (id : String)
    (store : List Game) : DbOutcome :=
  match nextVerifyToken verify secret authHdr with
  | none => ⟨401, some "Access token required", 0, store⟩
  | some _ =>
    if isUuid id then dbDeleteHandler id store
    else ⟨400, some "Validation failed", 0, store⟩

/-! ## In-memory endpoints

The first half of src/app/api/games/[id]/route.ts.  These handlers
receive the request but never read its authorization header, so the
header is an ignored parameter here. -/

def memGET (_authorization : Option String) (id : String)
    (store : List Game) : MemOutcome :=
  match store.find? (fun g => g.id = id) with
  | none => ⟨404, some "Game not found", none, store⟩
  | some g => ⟨200, none, some g, store⟩

/-- JS falsiness of an optional string: absent or empty. -/
def jsFalsyStr (v : Option String) : Bool :=
  match v with
  | none => true
  | some s => s = ""

/-- The first validation block of the in-memory PUT: name or genre
falsy, or rating or price strictly undefined. -/
def putMissingRequired (b : PutBody) : Bool :=
  jsFalsyStr b.name || jsFalsyStr b.genre || b.rating.isNone || b.price.isNone

/-- The record replacement of the in-memory PUT: a spread of the old
record, so id and createdAt are carried over, with the listed fields
overwritten and updatedAt set to the current time. -/
def memUpdatedGame (old : Game) (b : PutBody) (now : String) : Game :=
  { old with
    name := jsTrim (b.name.getD "")
    genre := jsTrim (b.genre.getD "")
    rating := b.rating.getD 0
    price := b.price.getD 0
    description := match b.description with
      | none => none
      | some s => if jsTrim s = "" then none else some (jsTrim s)
    releaseDate := match b.releaseDate with
      | none => none
      | some s => if s = "" then none else some s
    platform := b.platform
    updatedAt := some now }

/-- In-memory PUT: findIndex first, 404 when the id is absent, then the
three validation checks, then the in-place replacement. -/
def memPUT (_authorization : Option String) (id : String) (b : PutBody)
    (now : String) (store : List Game) : MemOutcome :=
  let i := store.findIdx (fun g => g.id = id)
  if h : i < store.length then
    if putMissingRequired b then ⟨400, some "Validation failed", none, store⟩
    else if b.rating.getD 0 < 0 || 10 < b.rating.getD 0 then
      ⟨400, some "Validation failed", none, store⟩
    else if b.price.getD 0 < 0 then ⟨400, some "Validation failed", none, store⟩
    else
      let upd := memUpdatedGame (store.get ⟨i, h⟩) b now
      ⟨200, none, some upd, store.set i upd⟩
  else ⟨404, some "Game not found", none, store⟩

/-- In-memory DELETE: findIndex, 404 when absent, else splice(i, 1). -/
def memDELETE (_authorization : Option String) (id : String)
    (store : List Game) : MemOutcome :=
  let i := store.findIdx (fun g => g.id = id)
  if i < store.length then ⟨200, none, none, store.eraseIdx i⟩
  else ⟨404, some "Game not found", none, store⟩

/-! ## Concrete stores -/

/-- The five demo records of src/lib/games-data.ts (timestamps, which
the source draws from the clock, are fixed here). -/
def demoGames : List Game :=
  [⟨"1", "The Legend of Zelda: Breath of the Wild", "Action-Adventure", 97/10, 5999/100,
    some "An open-world adventure game set in the kingdom of Hyrule.",
    some "2017-03-03", some ["Nintendo Switch", "Wii U"],
    some "2024-01-01T00:00:00.000Z", some "2024-01-01T00:00:00.000Z"⟩,
   ⟨"2", "God of War", "Action", 95/10, 4999/100,
    some "Follow Kratos and his son Atreus on an epic journey through Norse mythology.",
    some "2018-04-20", some ["PlayStation 4", "PlayStation 5", "PC"],
    some "2024-01-01T00:00:00.000Z", some "2024-01-01T00:00:00.000Z"⟩,
   ⟨"3", "Elden Ring", "Action RPG", 93/10, 5999/100,
    some "A dark fantasy action RPG developed by FromSoftware and George R.R. Martin.",
    some "2022-02-25", some ["PC", "PlayStation 4", "PlayStation 5", "Xbox One", "Xbox Series X/S"],
    some "2024-01-01T00:00:00.000Z", some "2024-01-01T00:00:00.000Z"⟩,
   ⟨"4", "Minecraft", "Sandbox", 9, 2695/100,
    some "A sandbox game where players can build and explore blocky worlds.",
    some "2011-11-18", some ["PC", "Mobile", "Console"],
    some "2024-01-01T00:00:00.000Z", some "2024-01-01T00:00:00.000Z"⟩,
   ⟨"5", "Stardew Valley", "Simulation", 89/10, 1499/100,
    some "A farming simulation game where you inherit the old farm plot of your grandfather.",
    some "2016-02-26", some ["PC", "Mobile", "Console"],
    some "2024-01-01T00:00:00.000Z", some "2024-01-01T00:00:00.000Z"⟩]

/-- A synthetic store of n rows with distinct ids and names. -/
def stdStore (n : Nat) : List Game :=
  (List.range n).map (fun i =>
    ⟨toString i, "game " ++ toString i, "genre", 5, 1, none, none, none, none, none⟩)

/-! ## Theorems -/

/-- The allow-list resolution both list handlers perform on the sortBy
parameter. -/
def resolvedSortColumn (qsortBy : Option String) : String :=
  let sortBy := jsStrOr qsortBy "name"
  if validSortColumns.contains sortBy then sortBy else "name"

/-- The direction keyword both list handlers pick from sortOrder. -/
def resolvedSortDir (qsortOrder : Option String) : String :=
  if qsortOrder = some "desc" then "DESC" else "ASC"

/-- C1: in the generated games list query the ORDER BY column is always a
member of the allow-list name, genre, rating, price, created_at, with any
other sortBy resolving to name; the direction keyword is DESC exactly when
sortOrder equals desc and ASC otherwise; and the query text is a function
of the resolved column, the direction and the mere presence of a search
filter, while the search pattern, limit and offset travel in the bound
parameter list, never in the text. -/
theorem c1_games_query_allowlist (qsortBy qsortOrder qsearch : Option String)
    (limit offset : Int) :
    resolvedSortColumn qsortBy ∈ validSortColumns ∧
    (jsStrOr qsortBy "name" ∉ validSortColumns → resolvedSortColumn qsortBy = "name") ∧
    (qsortOrder = some "desc" → resolvedSortDir qsortOrder = "DESC") ∧
    (qsortOrder ≠ some "desc" → resolvedSortDir qsortOrder = "ASC") ∧
    (buildGamesListQuery qsortBy qsortOrder qsearch limit offset).text =
      listQueryTemplate (!(jsStrOr qsearch "" = ""))
        (resolvedSortColumn qsortBy) (resolvedSortDir qsortOrder) ∧
    (buildGamesListQuery qsortBy qsortOrder qsearch limit offset).params =
      (if jsStrOr qsearch "" = "" then []
       else [SqlParam.s ("%" ++ jsStrOr qsearch "" ++ "%")]) ++
        [SqlParam.i limit, SqlParam.i offset] ∧
    (buildGamesListQuery qsortBy qsortOrder qsearch limit offset).countParams =
      (if jsStrOr qsearch "" = "" then []
       else [SqlParam.s ("%" ++ jsStrOr qsearch "" ++ "%")]) := by
  refine ⟨?_, ?_, ?_, ?_, ?_, ?_, ?_⟩
  · unfold resolvedSortColumn
    dsimp only
    split
    next h => exact List.elem_iff.mp h
    next h => decide
  · intro hmem
    unfold resolvedSortColumn
    dsimp only
    split
    next h => exact absurd (List.elem_iff.mp h) hmem
    next h => rfl
  · intro h; simp [resolvedSortDir, h]
  · intro h; simp [resolvedSortDir, h]
  · unfold buildGamesListQuery listQueryTemplate resolvedSortColumn resolvedSortDir
    by_cases hs : jsStrOr qsearch "" = "" <;> simp [hs]
  · unfold buildGamesListQuery
    by_cases hs : jsStrOr qsearch "" = "" <;> simp [hs]
  · unfold buildGamesListQuery
    by_cases hs : jsStrOr qsearch "" = "" <;> simp [hs]

/-- Witness for C1 at concrete inputs: a hostile sortBy resolves to name,
desc gives DESC, and the search pattern is bound, not interpolated. -/
theorem c1_games_query_allowlist_w :
    resolvedSortColumn (some "x; DROP TABLE games") = "name" ∧
    resolvedSortDir (some "desc") = "DESC" ∧
    (buildGamesListQuery (some "x; DROP TABLE games") (some "desc") (some "zelda") 10 0).text =
      listQueryTemplate true "name" "DESC" ∧
    (buildGamesListQuery (some "x; DROP TABLE games") (some "desc") (some "zelda") 10 0).params =
      [SqlParam.s "%zelda%", SqlParam.i 10, SqlParam.i 0] := by
  have h := c1_games_query_allowlist (some "x; DROP TABLE games") (some "desc") (some "zelda") 10 0
  refine ⟨h.2.1 (by decide), h.2.2.1 rfl, ?_, ?_⟩
  · rw [h.2.2.2.2.1, h.2.1 (by decide)]
    rfl
  · rw [h.2.2.2.2.2.1]
    rfl

/-- C5 counterexample: in the framework list route a non-numeric page or
limit parameter flows through Math.max and Math.min as NaN (modelled as
none), so the effective page is not an integer greater than or equal
to 1 and the effective limit is not an integer in [1, 100]; the claim
that both database-backed implementations clamp every input fails. -/
theorem c5_counterexample :
    nextEffPage (some "abc") = none ∧ nextEffLimit (some "abc") = none := by
  constructor <;> rfl

/-- C5 amended: the express implementation clamps every input (page at
least 1 with default 1, limit in [1, 100] with default 10); the framework
implementation produces those bounds whenever parseInt returns a number,
which covers absent parameters, and yields NaN exactly when a present
parameter has no leading digits. -/
theorem c5_amended :
    (∀ q : Option String,
      1 ≤ serverEffPage q ∧ 1 ≤ serverEffLimit q ∧ serverEffLimit q ≤ 100) ∧
    serverEffPage none = 1 ∧ serverEffLimit none = 10 ∧
    (∀ (q : Option String) (n : Int), nextEffPage q = some n → 1 ≤ n) ∧
    (∀ (q : Option String) (n : Int), nextEffLimit q = some n → 1 ≤ n ∧ n ≤ 100) ∧
    nextEffPage none = some 1 ∧ nextEffLimit none = some 10 ∧
    (∀ q : Option String, nextEffPage q = none →
      ∃ s, q = some s ∧ jsParseInt s = none) := by
  refine ⟨?_, rfl, rfl, ?_, ?_, rfl, rfl, ?_⟩
  · intro q
    rcases q with _ | s
    · exact ⟨by norm_num [serverEffPage], by norm_num [serverEffLimit],
        by norm_num [serverEffLimit]⟩
    · by_cases hs : s = ""
      · norm_num [serverEffPage, serverEffLimit, hs]
      · simp only [serverEffPage, serverEffLimit, hs, if_false]
        exact ⟨le_max_left 1 _, le_min (by norm_num) (le_max_left 1 _),
          min_le_left 100 _⟩
  · intro q n h
    unfold nextEffPage jsMaxNum at h
    match hp : jsParseInt (jsStrOr q "1") with
    | none => rw [hp] at h; exact absurd h (by simp)
    | some m =>
      rw [hp] at h
      simp only [Option.some.injEq] at h
      omega
  · intro q n h
    unfold nextEffLimit jsMinNum jsMaxNum at h
    match hp : jsParseInt (jsStrOr q "10") with
    | none => rw [hp] at h; exact absurd h (by simp)
    | some m =>
      rw [hp] at h
      simp only [Option.some.injEq] at h
      constructor <;> omega
  · intro q h
    match q with
    | none => exact absurd h (by decide)
    | some s =>
      refine ⟨s, rfl, ?_⟩
      by_cases hs : s = ""
      · subst hs
        exact absurd h (by decide)
      · unfold nextEffPage jsMaxNum at h
        simp only [jsStrOr, hs, if_false] at h
        match hp : jsParseInt s with
        | none => rfl
        | some m => rw [hp] at h; exact absurd h (by simp)

/-- Witness for C5 amended at concrete inputs: a negative page clamps to
1 on express, an oversized limit clamps to 100, and a numeric parameter
on the framework route satisfies the bounds. -/
theorem c5_amended_w :
    1 ≤ serverEffPage (some "-7") ∧ serverEffLimit (some "100000") ≤ 100 ∧
    (nextEffPage (some "3") = some 3 ∧ 1 ≤ (3 : Int)) ∧
    (nextEffLimit (some "250") = some 100 ∧ 1 ≤ (100 : Int) ∧ (100 : Int) ≤ 100) := by
  have h := c5_amended
  exact ⟨(h.1 (some "-7")).1, (h.1 (some "100000")).2.2,
    ⟨by decide, h.2.2.2.1 (some "3") 3 (by decide)⟩,
    ⟨by decide, h.2.2.2.2.1 (some "250") 100 (by decide)⟩⟩

/-- C7 counterexample: the schema of src/lib/validation.ts accepts the
platform field as a plain string and rejects a well-formed list of
strings, so it is not the case that every implementation accepts
platform only as a list of at most 10 strings of at most 50 characters;
the express schema does enforce the list shape. -/
theorem c7_counterexample :
    libPlatformRule (JsonVal.str "PC") = true ∧
    libPlatformRule (JsonVal.arrStr ["PC"]) = false ∧
    serverPlatformRule (JsonVal.arrStr ["PC"]) = true ∧
    serverPlatformRule (JsonVal.str "PC") = false := by
  refine ⟨by decide, by decide, by decide, by decide⟩

/-- C7 amended: the express schema accepts platform exactly as null or a
list of at most 10 nonempty strings of at most 50 characters each (a Joi
string rejects the empty string unless it is explicitly allowed); the
framework library schema accepts platform exactly as null, the empty
string, or a string whose trimmed length is at most 100 characters. -/
theorem c7_amended (v : JsonVal) :
    (serverPlatformRule v = true ↔
      v = JsonVal.null ∨
      ∃ l, v = JsonVal.arrStr l ∧ l.length ≤ 10 ∧
        ∀ s ∈ l, s ≠ "" ∧ s.length ≤ 50) ∧
    (libPlatformRule v = true ↔
      v = JsonVal.null ∨
      ∃ s, v = JsonVal.str s ∧ (s = "" ∨ (jsTrim s).length ≤ 100)) := by
  constructor
  · cases v with
    | null => simp [serverPlatformRule]
    | str s => simp [serverPlatformRule]
    | num x => simp [serverPlatformRule]
    | arrStr l =>
      simp only [serverPlatformRule, Bool.and_eq_true, decide_eq_true_eq,
        List.all_eq_true, Bool.not_eq_eq_eq_not, Bool.not_true,
        decide_eq_false_iff_not]
      constructor
      · rintro ⟨h1, h2⟩
        refine Or.inr ⟨l, rfl, h1, fun s hs => ?_⟩
        rcases h2 s hs with ⟨hne, hlen⟩
        exact ⟨hne, hlen⟩
      · rintro (h | ⟨l2, hl, h1, h2⟩)
        · exact absurd h (by simp)
        · cases hl
          refine ⟨h1, fun s hs => ?_⟩
          rcases h2 s hs with ⟨hne, hlen⟩
          exact ⟨hne, hlen⟩
  · cases v with
    | null => simp [libPlatformRule]
    | str s =>
      simp only [libPlatformRule, Bool.or_eq_true, decide_eq_true_eq]
      constructor
      · rintro (h | h)
        · exact Or.inr ⟨s, rfl, Or.inl (by simpa using h)⟩
        · exact Or.inr ⟨s, rfl, Or.inr h⟩
      · rintro (h | ⟨s2, hs, h⟩)
        · exact absurd h (by simp)
        · cases hs
          rcases h with h | h
          · exact Or.inl (by simpa using h)
          · exact Or.inr h
    | num x => simp [libPlatformRule]
    | arrStr l => simp [libPlatformRule]

/-- C2 counterexample: the in-memory GET, PUT and DELETE handlers never
read the authorization header, so a request without one is served, not
answered 401: the GET returns 200 and the DELETE both returns 200 and
shrinks the store, a store write. -/
theorem c2_counterexample :
    (memGET none "1" demoGames).status = 200 ∧
    (memDELETE none "1" demoGames).status = 200 ∧
    (memDELETE none "1" demoGames).store.length = demoGames.length - 1 := by
  refine ⟨rfl, rfl, rfl⟩

/-- C2 amended: in the express implementation and the database-backed
framework implementation, every protected games endpoint answers a
request without an Authorization header with the 401 envelope, issues no
SQL statement, and leaves the store untouched; the in-memory variant of
the id endpoints performs no authentication at all. -/
theorem c2_amended (verify : String → String → Option String)
    (dateOk : String → Bool)
    (secret qpage qlimit qsortBy qsortOrder qsearch : Option String)
    (id newId now : String) (body : GameInput) (store : List Game) :
    serverGamesList verify secret none qpage qlimit qsortBy qsortOrder qsearch store =
      ⟨401, some "Access token required", 0, [], none, store⟩ ∧
    serverGameById verify secret none id store =
      ⟨401, some "Access token required", 0, store⟩ ∧
    serverCreateGame verify dateOk secret none body newId now store =
      ⟨401, some "Access token required", 0, store⟩ ∧
    serverUpdateGame verify dateOk secret none id body now store =
      ⟨401, some "Access token required", 0, store⟩ ∧
    serverDeleteGame verify secret none id store =
      ⟨401, some "Access token required", 0, store⟩ ∧
    nextGamesList verify secret none qpage qlimit qsortBy qsortOrder qsearch store =
      ⟨401, some "Access token required", 0, [], none, store⟩ ∧
    nextGameById verify secret none id store =
      ⟨401, some "Access token required", 0, store⟩ ∧
    nextCreateGame verify secret none body newId now store =
      ⟨401, some "Access token required", 0, store⟩ ∧
    nextUpdateGame verify secret none id body now store =
      ⟨401, some "Access token required", 0, store⟩ ∧
    nextDeleteGame verify secret none id store =
      ⟨401, some "Access token required", 0, store⟩ := by
  refine ⟨rfl, rfl, rfl, rfl, rfl, rfl, rfl, rfl, rfl, rfl⟩

/-- C3 counterexample: a request with a present but invalid token gets
status 401 with error Access token required from the framework
implementation, not the claimed 403 with Invalid or expired token, while
the express implementation answers 403; the two failure classes are not
distinguishable by status code in every implementation. -/
theorem c3_counterexample :
    (nextGamesList (fun _ _ => none) (some "secret") (some "Bearer tok")
      none none none none none []).status = 401 ∧
    (nextGamesList (fun _ _ => none) (some "secret") (some "Bearer tok")
      none none none none none []).error = some "Access token required" ∧
    (serverGamesList (fun _ _ => none) (some "secret") (some "Bearer tok")
      none none none none none []).status = 403 ∧
    (serverGamesList (fun _ _ => none) (some "secret") (some "Bearer tok")
      none none none none none []).error = some "Invalid or expired token" := by
  refine ⟨rfl, rfl, rfl, rfl⟩

/-- C3 amended: the express implementation distinguishes the two failure
classes, 401 Access token required for a missing token and 403 Invalid
or expired token when verification of a present token fails; the
framework implementation folds every authentication failure into 401
Access token required. -/
theorem c3_amended :
    (∀ (verify : String → String → Option String)
      (secret authHdr qpage qlimit qsortBy qsortOrder qsearch : Option String)
      (store : List Game), extractBearerToken authHdr = none →
      serverGamesList verify secret authHdr qpage qlimit qsortBy qsortOrder qsearch store =
        ⟨401, some "Access token required", 0, [], none, store⟩) ∧
    (∀ (verify : String → String → Option String) (k t : String)
      (authHdr qpage qlimit qsortBy qsortOrder qsearch : Option String)
      (store : List Game), extractBearerToken authHdr = some t → verify t k = none →
      serverGamesList verify (some k) authHdr qpage qlimit qsortBy qsortOrder qsearch store =
        ⟨403, some "Invalid or expired token", 0, [], none, store⟩) ∧
    (∀ (verify : String → String → Option String)
      (secret authHdr qpage qlimit qsortBy qsortOrder qsearch : Option String)
      (store : List Game), nextVerifyToken verify secret authHdr = none →
      nextGamesList verify secret authHdr qpage qlimit qsortBy qsortOrder qsearch store =
        ⟨401, some "Access token required", 0, [], none, store⟩) := by
  refine ⟨?_, ?_, ?_⟩
  · intro verify secret authHdr qp ql qsb qso qs store hext
    simp [serverGamesList, authenticateToken, hext]
  · intro verify k t authHdr qp ql qsb qso qs store hext hv
    simp [serverGamesList, authenticateToken, hext, hv]
  · intro verify secret authHdr qp ql qsb qso qs store hn
    simp [nextGamesList, hn]

/-- Witness for C3 amended at concrete requests: no header gives 401 on
express, an invalid token gives 403 on express and 401 on the framework
route. -/
theorem c3_amended_w :
    serverGamesList (fun _ _ => none) (some "k") none none none none none none [] =
      ⟨401, some "Access token required", 0, [], none, []⟩ ∧
    serverGamesList (fun _ _ => none) (some "k") (some "Bearer tok") none none none none none [] =
      ⟨403, some "Invalid or expired token", 0, [], none, []⟩ ∧
    nextGamesList (fun _ _ => none) (some "k") (some "Bearer tok") none none none none none [] =
      ⟨401, some "Access token required", 0, [], none, []⟩ :=
  ⟨c3_amended.1 (fun _ _ => none) (some "k") none none none none none none [] rfl,
   c3_amended.2.1 (fun _ _ => none) "k" "tok" (some "Bearer tok") none none none none none [] rfl rfl,
   c3_amended.2.2 (fun _ _ => none) (some "k") (some "Bearer tok") none none none none none [] rfl⟩

/-- C6 counterexample: with the signing secret absent, a framework
request that carries a bearer token is answered 401 Access token
required, an auth error, not a 500-class response; the claim that both
implementations surface a missing secret as a 500 fails. -/
theorem c6_counterexample :
    (nextGamesList (fun _ _ => some "u") none (some "Bearer tok")
      none none none none none []).status = 401 ∧
    (nextGamesList (fun _ _ => some "u") none (some "Bearer tok")
      none none none none none []).error = some "Access token required" := by
  refine ⟨rfl, rfl⟩

/-- C6 amended: with the signing secret absent, the express
implementation answers 500 Internal server error on every request that
carries a token (and still 401 when no token is present, since the token
check comes first), while the framework implementation answers 401
Access token required on every request. -/
theorem c6_amended :
    (∀ (verify : String → String → Option String) (t : String)
      (authHdr qpage qlimit qsortBy qsortOrder qsearch : Option String)
      (store : List Game), extractBearerToken authHdr = some t →
      serverGamesList verify none authHdr qpage qlimit qsortBy qsortOrder qsearch store =
        ⟨500, some "Internal server error", 0, [], none, store⟩) ∧
    (∀ (verify : String → String → Option String)
      (authHdr qpage qlimit qsortBy qsortOrder qsearch : Option String)
      (store : List Game), extractBearerToken authHdr = none →
      serverGamesList verify none authHdr qpage qlimit qsortBy qsortOrder qsearch store =
        ⟨401, some "Access token required", 0, [], none, store⟩) ∧
    (∀ (verify : String → String → Option String)
      (authHdr qpage qlimit qsortBy qsortOrder qsearch : Option String)
      (store : List Game),
      nextGamesList verify none authHdr qpage qlimit qsortBy qsortOrder qsearch store =
        ⟨401, some "Access token required", 0, [], none, store⟩) := by
  refine ⟨?_, ?_, ?_⟩
  · intro verify t authHdr qp ql qsb qso qs store hext
    simp [serverGamesList, authenticateToken, hext]
  · intro verify authHdr qp ql qsb qso qs store hext
    simp [serverGamesList, authenticateToken, hext]
  · intro verify authHdr qp ql qsb qso qs store
    have hn : nextVerifyToken verify none authHdr = none := by
      unfold nextVerifyToken
      cases extractBearerToken authHdr <;> rfl
    simp [nextGamesList, hn]

/-- Witness for C6 amended: a token-bearing request against the express
implementation with no secret configured gets the 500 envelope. -/
theorem c6_amended_w :
    serverGamesList (fun _ _ => some "u") none (some "Bearer tok") none none none none none [] =
      ⟨500, some "Internal server error", 0, [], none, []⟩ ∧
    serverGamesList (fun _ _ => some "u") none none none none none none none [] =
      ⟨401, some "Access token required", 0, [], none, []⟩ :=
  ⟨c6_amended.1 (fun _ _ => some "u") "tok" (some "Bearer tok") none none none none none [] rfl,
   c6_amended.2.1 (fun _ _ => some "u") none none none none none none [] rfl⟩

/-! ## Arithmetic and length lemmas for the list endpoint -/

lemma le_ceilDiv_mul (t l : Nat) (hl : 0 < l) : t ≤ jsCeilDiv t l * l := by
  rcases Nat.eq_zero_or_pos t with ht | ht
  · simp [ht]
  · have h1 : t + l - 1 = t - 1 + l := by omega
    unfold jsCeilDiv
    rw [h1, Nat.add_div_right _ hl]
    have h2 := Nat.div_add_mod (t - 1) l
    have h3 : (t - 1) % l < l := Nat.mod_lt _ hl
    have h5 : ((t - 1) / l + 1) * l = l * ((t - 1) / l) + l := by ring
    rw [h5]
    generalize hm : l * ((t - 1) / l) = m at h2
    generalize hr : (t - 1) % l = r at h2 h3
    omega

lemma ceilDiv_le (t l k : Nat) (hl : 0 < l) (h : t ≤ k * l) : jsCeilDiv t l ≤ k := by
  unfold jsCeilDiv
  rcases Nat.eq_zero_or_pos t with ht | ht
  · have h0 : (l - 1) / l = 0 := Nat.div_eq_of_lt (by omega)
    simp [ht, h0]
  · have h1 : t + l - 1 = t - 1 + l := by omega
    rw [h1, Nat.add_div_right _ hl]
    have h2 : t - 1 < k * l :=
      lt_of_lt_of_le (Nat.sub_lt ht (by norm_num)) h
    have h3 : (t - 1) / l < k := (Nat.div_lt_iff_lt_mul hl).mpr h2
    omega

lemma length_insertOrdered (le : Game → Game → Bool) (a : Game)
    (l : List Game) : (insertOrdered le a l).length = l.length + 1 := by
  induction l with
  | nil => rfl
  | cons b t ih =>
    unfold insertOrdered
    split
    · rfl
    · simp only [List.length_cons, ih]

lemma length_sortGames (le : Game → Game → Bool) (l : List Game) :
    (sortGames le l).length = l.length := by
  induction l with
  | nil => rfl
  | cons a t ih =>
    unfold sortGames
    rw [length_insertOrdered, ih]
    rfl

/-- C4: the pagination meta of the list endpoints satisfies
itemsPerPage = limit, currentPage = page, totalItems = size of the
filtered set, hasNextPage iff page < totalPages, hasPreviousPage iff
page > 1, and totalPages is the ceiling of totalItems / limit (the least
page count covering totalItems); over 25 matching records with page 2
and limit 10 the response carries exactly 10 records with totalPages 3
and both page flags true, and over an empty store with the defaults it
reports currentPage 1, totalPages 0, totalItems 0. -/
theorem c4_pagination_meta :
    (∀ (store : List Game) (search col dir : String) (page limit : Nat),
      1 ≤ limit →
      (listGamesCore store search col dir page limit).2.itemsPerPage = limit ∧
      (listGamesCore store search col dir page limit).2.currentPage = page ∧
      (listGamesCore store search col dir page limit).2.totalItems =
        (filteredGames store search).length ∧
      (listGamesCore store search col dir page limit).2.hasNextPage =
        decide (page < (listGamesCore store search col dir page limit).2.totalPages) ∧
      (listGamesCore store search col dir page limit).2.hasPreviousPage =
        decide (1 < page) ∧
      (listGamesCore store search col dir page limit).2.totalItems ≤
        (listGamesCore store search col dir page limit).2.totalPages * limit ∧
      (∀ k, (listGamesCore store search col dir page limit).2.totalItems ≤ k * limit →
        (listGamesCore store search col dir page limit).2.totalPages ≤ k) ∧
      (listGamesCore store search col dir page limit).1.length =
        min limit ((filteredGames store search).length - (page - 1) * limit)) ∧
    ((listGamesCore (stdStore 25) "" "name" "ASC" 2 10).1.length = 10 ∧
      (listGamesCore (stdStore 25) "" "name" "ASC" 2 10).2.totalPages = 3 ∧
      (listGamesCore (stdStore 25) "" "name" "ASC" 2 10).2.totalItems = 25 ∧
      (listGamesCore (stdStore 25) "" "name" "ASC" 2 10).2.hasNextPage = true ∧
      (listGamesCore (stdStore 25) "" "name" "ASC" 2 10).2.hasPreviousPage = true) ∧
    ((listGamesCore [] "" "name" "ASC" 1 10).2.currentPage = 1 ∧
      (listGamesCore [] "" "name" "ASC" 1 10).2.totalPages = 0 ∧
      (listGamesCore [] "" "name" "ASC" 1 10).2.totalItems = 0 ∧
      (listGamesCore [] "" "name" "ASC" 1 10).1 = []) := by
  have hgen : ∀ (store : List Game) (search col dir : String) (page limit : Nat),
      1 ≤ limit →
      (listGamesCore store search col dir page limit).2.itemsPerPage = limit ∧
      (listGamesCore store search col dir page limit).2.currentPage = page ∧
      (listGamesCore store search col dir page limit).2.totalItems =
        (filteredGames store search).length ∧
      (listGamesCore store search col dir page limit).2.hasNextPage =
        decide (page < (listGamesCore store search col dir page limit).2.totalPages) ∧
      (listGamesCore store search col dir page limit).2.hasPreviousPage =
        decide (1 < page) ∧
      (listGamesCore store search col dir page limit).2.totalItems ≤
        (listGamesCore store search col dir page limit).2.totalPages * limit ∧
      (∀ k, (listGamesCore store search col dir page limit).2.totalItems ≤ k * limit →
        (listGamesCore store search col dir page limit).2.totalPages ≤ k) ∧
      (listGamesCore store search col dir page limit).1.length =
        min limit ((filteredGames store search).length - (page - 1) * limit) := by
    intro store search col dir page limit hl
    unfold listGamesCore
    dsimp only
    refine ⟨rfl, rfl, rfl, rfl, rfl, ?_, ?_, ?_⟩
    · exact le_ceilDiv_mul _ _ hl
    · intro k hk
      exact ceilDiv_le _ _ _ hl hk
    · rw [List.length_take, List.length_drop, length_sortGames]
  refine ⟨hgen, ⟨?_, ?_, ?_, ?_, ?_⟩, ?_, ?_, ?_, ?_⟩
  · have h := (hgen (stdStore 25) "" "name" "ASC" 2 10 (by norm_num)).2.2.2.2.2.2.2
    rw [h]
    have h25 : (filteredGames (stdStore 25) "").length = 25 := by
      simp [filteredGames, stdStore]
    rw [h25]
    norm_num
  · rfl
  · have h := (hgen (stdStore 25) "" "name" "ASC" 2 10 (by norm_num)).2.2.1
    rw [h]
    simp [filteredGames, stdStore]
  · rfl
  · rfl
  · rfl
  · rfl
  · rfl
  · rfl

/-- Witness for C4 at a concrete call: the demo store, default page and
limit. -/
theorem c4_pagination_meta_w :
    (listGamesCore demoGames "" "name" "ASC" 1 10).2.itemsPerPage = 10 ∧
    (listGamesCore demoGames "" "name" "ASC" 1 10).2.totalItems ≤
      (listGamesCore demoGames "" "name" "ASC" 1 10).2.totalPages * 10 := by
  have h := c4_pagination_meta.1 demoGames "" "name" "ASC" 1 10 (by norm_num)
  exact ⟨h.1, h.2.2.2.2.2.1⟩

/-- C8 counterexample: the in-memory PUT consults the store before
validating; with an invalid payload (name missing, rating 50) and an
absent id it answers 404 Game not found, not the claimed 400 validation
error. -/
theorem c8_counterexample :
    (memPUT none "999" ⟨none, some "Action", some 50, some 10, none, none, none⟩
      "2024-02-02" demoGames).status = 404 ∧
    (memPUT none "999" ⟨none, some "Action", some 50, some 10, none, none, none⟩
      "2024-02-02" demoGames).error = some "Game not found" ∧
    putMissingRequired ⟨none, some "Action", some 50, some 10, none, none, none⟩ = true := by
  refine ⟨rfl, rfl, rfl⟩

/-- C8 amended: in both database-backed implementations an authenticated
create or update whose payload fails the game schema is answered 400
Validation failed with no SQL statement issued and the store unchanged,
whatever the id; the in-memory PUT instead resolves the id against the
store first and answers 404 for an absent id even when the payload is
invalid. -/
theorem c8_amended :
    (∀ (verify : String → String → Option String) (dateOk : String → Bool)
      (secret authHdr : Option String)
      (u id now : String) (body : GameInput) (store : List Game),
      authenticateToken verify secret authHdr = .ok u →
      serverGameValid dateOk body = false →
      serverUpdateGame verify dateOk secret authHdr id body now store =
        ⟨400, some "Validation failed", 0, store⟩) ∧
    (∀ (verify : String → String → Option String) (dateOk : String → Bool)
      (secret authHdr : Option String)
      (u newId now : String) (body : GameInput) (store : List Game),
      authenticateToken verify secret authHdr = .ok u →
      serverGameValid dateOk body = false →
      serverCreateGame verify dateOk secret authHdr body newId now store =
        ⟨400, some "Validation failed", 0, store⟩) ∧
    (∀ (verify : String → String → Option String) (secret authHdr : Option String)
      (u id now : String) (body : GameInput) (store : List Game),
      nextVerifyToken verify secret authHdr = some u → libGameValid body = false →
      nextUpdateGame verify secret authHdr id body now store =
        ⟨400, some "Validation failed", 0, store⟩) ∧
    (∀ (verify : String → String → Option String) (secret authHdr : Option String)
      (u newId now : String) (body : GameInput) (store : List Game),
      nextVerifyToken verify secret authHdr = some u → libGameValid body = false →
      nextCreateGame verify secret authHdr body newId now store =
        ⟨400, some "Validation failed", 0, store⟩) := by
  refine ⟨?_, ?_, ?_, ?_⟩
  · intro verify dateOk secret authHdr u id now body store ha hv
    unfold serverUpdateGame
    rw [ha]
    by_cases hid : isUuid id <;> simp [hid, hv]
  · intro verify dateOk secret authHdr u newId now body store ha hv
    unfold serverCreateGame
    rw [ha]
    simp [hv]
  · intro verify secret authHdr u id now body store ha hv
    unfold nextUpdateGame
    rw [ha]
    by_cases hid : isUuid id <;> simp [hid, hv]
  · intro verify secret authHdr u newId now body store ha hv
    unfold nextCreateGame
    rw [ha]
    simp [hv]

/-- Witness for C8 amended: a payload with no name is rejected by both
database-backed PUT implementations with 400, zero queries and an
unchanged store, although the target id does not exist. -/
theorem c8_amended_w :
    serverUpdateGame (fun _ _ => some "u") (fun _ => true) (some "k") (some "Bearer t") "999"
      ⟨none, some "Action", some 5, some 10, none, none, none⟩ "2024-02-02" demoGames =
      ⟨400, some "Validation failed", 0, demoGames⟩ ∧
    nextUpdateGame (fun _ _ => some "u") (some "k") (some "Bearer t") "999"
      ⟨none, some "Action", some 5, some 10, none, none, none⟩ "2024-02-02" demoGames =
      ⟨400, some "Validation failed", 0, demoGames⟩ :=
  ⟨c8_amended.1 (fun _ _ => some "u") (fun _ => true) (some "k") (some "Bearer t") "u" "999"
      "2024-02-02" ⟨none, some "Action", some 5, some 10, none, none, none⟩ demoGames rfl rfl,
   c8_amended.2.2.1 (fun _ _ => some "u") (some "k") (some "Bearer t") "u" "999"
      "2024-02-02" ⟨none, some "Action", some 5, some 10, none, none, none⟩ demoGames rfl rfl⟩

/-! ## Lemmas for the delete and update claims -/

lemma select_after_delete (id : String) (l : List Game) :
    (l.filter (fun g => !(g.id = id))).filter (fun g => g.id = id) = [] := by
  induction l with
  | nil => rfl
  | cons a t ih => by_cases ha : a.id = id <;> simp [List.filter_cons, ha, ih]

lemma filter_idem (p : Game → Bool) (l : List Game) :
    (l.filter p).filter p = l.filter p := by
  induction l with
  | nil => rfl
  | cons a t ih => by_cases hp : p a <;> simp [List.filter_cons, hp, ih]

lemma filter_length_eraseIdx_findIdx (p : Game → Bool) (l : List Game)
    (h : l.findIdx p < l.length) :
    ((l.eraseIdx (l.findIdx p)).filter p).length = (l.filter p).length - 1 := by
  induction l with
  | nil => simp at h
  | cons a t ih =>
    by_cases hp : p a
    · simp [List.findIdx_cons, hp, List.filter_cons]
    · have hpa : p a = false := by simpa using hp
      have h2 : t.findIdx p < t.length := by
        simp only [List.findIdx_cons, hpa, cond_false, List.length_cons] at h
        omega
      simp [List.findIdx_cons, hpa, List.filter_cons, ih h2]

/-- C9: after a successful delete of an id, a get of the same id answers
the 404 Game not found envelope and a second delete also answers 404,
with the store left unchanged by both failing calls; this holds for the
database-backed delete (which removes every row with the id) and for the
in-memory variant under the store invariant that the id occurs exactly
once. -/
theorem c9_delete_then_404 :
    (∀ (id : String) (store : List Game),
      (dbDeleteHandler id store).status = 200 →
      (dbGetByIdHandler id (dbDeleteHandler id store).store).status = 404 ∧
      (dbGetByIdHandler id (dbDeleteHandler id store).store).error = some "Game not found" ∧
      (dbGetByIdHandler id (dbDeleteHandler id store).store).store =
        (dbDeleteHandler id store).store ∧
      (dbDeleteHandler id (dbDeleteHandler id store).store).status = 404 ∧
      (dbDeleteHandler id (dbDeleteHandler id store).store).error = some "Game not found" ∧
      (dbDeleteHandler id (dbDeleteHandler id store).store).store =
        (dbDeleteHandler id store).store) ∧
    (∀ (id : String) (store : List Game),
      (store.filter (fun g => g.id = id)).length = 1 →
      (memDELETE none id store).status = 200 ∧
      (memGET none id (memDELETE none id store).store).status = 404 ∧
      (memGET none id (memDELETE none id store).store).error = some "Game not found" ∧
      (memGET none id (memDELETE none id store).store).store =
        (memDELETE none id store).store ∧
      (memDELETE none id (memDELETE none id store).store).status = 404 ∧
      (memDELETE none id (memDELETE none id store).store).error = some "Game not found" ∧
      (memDELETE none id (memDELETE none id store).store).store =
        (memDELETE none id store).store) := by
  constructor
  · intro id store _h
    have hstore : (dbDeleteHandler id store).store =
        store.filter (fun g => !(g.id = id)) := by
      unfold dbDeleteHandler dbDeleteById
      dsimp only
      split <;> rfl
    have hsel : dbSelectById id (store.filter (fun g => !(g.id = id))) = [] :=
      select_after_delete id store
    have hget : dbGetByIdHandler id (store.filter (fun g => !(g.id = id))) =
        ⟨404, some "Game not found", 1, store.filter (fun g => !(g.id = id))⟩ := by
      unfold dbGetByIdHandler
      rw [hsel]
    have hdel2 : dbDeleteHandler id (store.filter (fun g => !(g.id = id))) =
        ⟨404, some "Game not found", 1, store.filter (fun g => !(g.id = id))⟩ := by
      unfold dbDeleteHandler dbDeleteById
      have hz : ((store.filter (fun g => !(g.id = id))).filter
          (fun g => g.id = id)).length = 0 := by
        unfold dbSelectById at hsel
        rw [hsel]
        rfl
      rw [filter_idem]
      simp [hz]
    rw [hstore, hget, hdel2]
    exact ⟨rfl, rfl, rfl, rfl, rfl, rfl⟩
  · intro id store hcount
    have hex : store.findIdx (fun g => g.id = id) < store.length := by
      rw [List.findIdx_lt_length]
      have hne : store.filter (fun g => g.id = id) ≠ [] := by
        intro he
        rw [he] at hcount
        simp at hcount
      rcases List.exists_mem_of_ne_nil _ hne with ⟨g, hg⟩
      rcases List.mem_filter.mp hg with ⟨hmem, hp⟩
      exact ⟨g, hmem, hp⟩
    have hs1 : (memDELETE none id store).store =
        store.eraseIdx (store.findIdx (fun g => g.id = id)) := by
      unfold memDELETE
      rw [if_pos hex]
    have h200 : (memDELETE none id store).status = 200 := by
      unfold memDELETE
      rw [if_pos hex]
    have hcount0 : ((store.eraseIdx (store.findIdx (fun g => g.id = id))).filter
        (fun g => g.id = id)).length = 0 := by
      rw [filter_length_eraseIdx_findIdx _ _ hex, hcount]
    have hnil := List.length_eq_zero.mp hcount0
    have hnone := List.filter_eq_nil_iff.mp hnil
    have hfind : (store.eraseIdx (store.findIdx (fun g => g.id = id))).find?
        (fun g => g.id = id) = none :=
      List.find?_eq_none.mpr hnone
    have hnf : ¬ ((store.eraseIdx (store.findIdx (fun g => g.id = id))).findIdx
        (fun g => g.id = id) <
        (store.eraseIdx (store.findIdx (fun g => g.id = id))).length) := by
      rw [List.findIdx_lt_length]
      rintro ⟨g, hg, hp⟩
      exact hnone g hg hp
    have hget : memGET none id (store.eraseIdx (store.findIdx (fun g => g.id = id))) =
        ⟨404, some "Game not found", none,
          store.eraseIdx (store.findIdx (fun g => g.id = id))⟩ := by
      unfold memGET
      rw [hfind]
    have hdel2 : memDELETE none id (store.eraseIdx (store.findIdx (fun g => g.id = id))) =
        ⟨404, some "Game not found", none,
          store.eraseIdx (store.findIdx (fun g => g.id = id))⟩ := by
      unfold memDELETE
      rw [if_neg hnf]
    rw [hs1, hget, hdel2]
    exact ⟨h200, rfl, rfl, rfl, rfl, rfl, rfl⟩

/-- Witness for C9 at a concrete store: deleting id 3 from the demo
store succeeds once and both follow-up calls answer 404. -/
theorem c9_delete_then_404_w :
    (dbGetByIdHandler "3" (dbDeleteHandler "3" demoGames).store).status = 404 ∧
    (memDELETE none "3" demoGames).status = 200 ∧
    (memGET none "3" (memDELETE none "3" demoGames).store).status = 404 ∧
    (memDELETE none "3" (memDELETE none "3" demoGames).store).status = 404 :=
  ⟨(c9_delete_then_404.1 "3" demoGames (by decide)).1,
   (c9_delete_then_404.2 "3" demoGames (by decide)).1,
   (c9_delete_then_404.2 "3" demoGames (by decide)).2.1,
   (c9_delete_then_404.2 "3" demoGames (by decide)).2.2.2.2.1⟩

/-- C10: a successful in-memory PUT replaces the record at the found
index by a spread of the old record, so the id and createdAt fields of
that record are preserved, exactly name, genre, rating, price,
description, releaseDate, platform and updatedAt are overwritten, and
every record at any other index of the games array is untouched. -/
theorem c10_memPUT_frame (id : String) (b : PutBody) (now : String)
    (store : List Game)
    (h200 : (memPUT none id b now store).status = 200) :
    ∃ h : store.findIdx (fun g => g.id = id) < store.length,
      (memPUT none id b now store).store =
        store.set (store.findIdx (fun g => g.id = id))
          (memUpdatedGame (store.get ⟨store.findIdx (fun g => g.id = id), h⟩) b now) ∧
      (memUpdatedGame (store.get ⟨store.findIdx (fun g => g.id = id), h⟩) b now).id =
        (store.get ⟨store.findIdx (fun g => g.id = id), h⟩).id ∧
      (memUpdatedGame (store.get ⟨store.findIdx (fun g => g.id = id), h⟩) b now).createdAt =
        (store.get ⟨store.findIdx (fun g => g.id = id), h⟩).createdAt ∧
      (memUpdatedGame (store.get ⟨store.findIdx (fun g => g.id = id), h⟩) b now).name =
        jsTrim (b.name.getD "") ∧
      (memUpdatedGame (store.get ⟨store.findIdx (fun g => g.id = id), h⟩) b now).rating =
        b.rating.getD 0 ∧
      (memUpdatedGame (store.get ⟨store.findIdx (fun g => g.id = id), h⟩) b now).platform =
        b.platform ∧
      (memUpdatedGame (store.get ⟨store.findIdx (fun g => g.id = id), h⟩) b now).updatedAt =
        some now ∧
      ∀ j, j ≠ store.findIdx (fun g => g.id = id) →
        (memPUT none id b now store).store[j]? = store[j]? := by
  unfold memPUT at h200 ⊢
  dsimp only at h200 ⊢
  by_cases hfound : store.findIdx (fun g => g.id = id) < store.length
  · rw [dif_pos hfound] at h200 ⊢
    by_cases h1 : putMissingRequired b = true
    · rw [if_pos h1] at h200
      simp at h200
    · rw [if_neg h1] at h200 ⊢
      by_cases h2 : (decide (b.rating.getD 0 < 0) || decide (10 < b.rating.getD 0)) = true
      · rw [if_pos h2] at h200
        simp at h200
      · rw [if_neg h2] at h200 ⊢
        by_cases h3 : b.price.getD 0 < 0
        · rw [if_pos h3] at h200
          simp at h200
        · rw [if_neg h3] at h200 ⊢
          refine ⟨hfound, rfl, rfl, rfl, rfl, rfl, rfl, rfl, ?_⟩
          intro j hj
          exact List.getElem?_set_ne (Ne.symm hj)
  · rw [dif_neg hfound] at h200
    simp at h200

/-- Witness for C10: updating game 1 of the demo store succeeds and
leaves the record at index 1 untouched. -/
theorem c10_memPUT_frame_w :
    (memPUT none "1" ⟨some "Zelda", some "Adventure", some 9, some 60,
      none, none, none⟩ "2024-02-02" demoGames).status = 200 ∧
    (memPUT none "1" ⟨some "Zelda", some "Adventure", some 9, some 60,
      none, none, none⟩ "2024-02-02" demoGames).store[1]? = demoGames[1]? := by
  have h := c10_memPUT_frame "1"
    ⟨some "Zelda", some "Adventure", some 9, some 60, none, none, none⟩
    "2024-02-02" demoGames (by decide)
  rcases h with ⟨hf, _, _, _, _, _, _, _, hframe⟩
  exact ⟨by decide, hframe 1 (by decide)⟩

end GamesApi
